import Mathlib

/-!
Shallow embedding of the homebox-analytics report engine
(`src/src/analysis.py` together with its helpers in `src/src/utils.py`).

Modelling conventions:
* Python `datetime` values are day ordinals (days since 1970-01-01, computed
  by the standard civil-from-days algorithm) together with a time-of-day in
  microseconds, Python's `timedelta` resolution.  `datetime.date()` keeps the
  day ordinal only; `timedelta.days` is floor division by the microseconds
  per day.
* Monetary values are rationals.  Python's floats are modelled as exact
  arithmetic; the identities proved here hold for the float program as well
  because each one equates syntactically identical computations or guarded
  zero branches.  `float(...)` parsing is modelled for sign/decimal literals
  (exponents, inf and nan are out of scope, no claim depends on them).
* Row dictionaries become the `Item` structure; a missing key is `none`.
  The engine's single in-place write (`r['days_held'] = days_held`) is made
  explicit: `rows_after` is the caller's row list as it stands after the
  call, and the report's lists carry the engine's own (annotated) values.
* The engine reads `datetime.now()` internally; the read value is passed as
  the explicit `now` argument.
-/

namespace Homebox

/-- Character-list test: does the second list start with the first? -/
def beginsWith : List Char → List Char → Bool
  | [], _ => true
  | _ :: _, [] => false
  | p :: ps, h :: hs => p == h && beginsWith ps hs

/-- Substring containment (`pat in hay` on Python strings). -/
def hasSub (pat : List Char) : List Char → Bool
  | [] => beginsWith pat []
  | h :: hs => beginsWith pat (h :: hs) || hasSub pat hs

/-- `str.split(sep)` on a single-character separator. -/
def splitOnChar (sep : Char) : List Char → List (List Char)
  | [] => [[]]
  | c :: cs =>
    let rest := splitOnChar sep cs
    if c == sep then [] :: rest
    else match rest with
      | [] => [[c]]
      | r :: rs => (c :: r) :: rs

/-- `str.lower()` (ASCII letters; the trigger keywords are all ASCII). -/
def lowerStr (s : List Char) : List Char := s.map Char.toLower

/-- Numeric value of a digit string. -/
def digitsVal (cs : List Char) : Nat := cs.foldl (fun a c => 10 * a + (c.toNat - 48)) 0

/-- Nonempty and all characters are decimal digits. -/
def allDigits (cs : List Char) : Bool := !cs.isEmpty && cs.all Char.isDigit

/-- Microseconds per day, the resolution of Python datetimes. -/
def usPerDay : Int := 86400000000

/-- A Python `datetime`: day ordinal plus time of day in microseconds.
`date()` keeps only `day`, which is how all day-granularity comparisons are
modelled. -/
structure DateTime where
  day : Int
  tod : Int := 0
deriving DecidableEq, Repr

/-- `(a - b).days` of Python datetimes: floor division of the microsecond
difference by the length of a day. -/
def tdDays (a b : DateTime) : Int :=
  Int.fdiv ((a.day * usPerDay + a.tod) - (b.day * usPerDay + b.tod)) usPerDay

/-- Days in a month of the proleptic Gregorian calendar. -/
def daysInMonth (y m : Nat) : Nat :=
  if m == 2 then (if y % 4 == 0 && (y % 100 != 0 || y % 400 == 0) then 29 else 28)
  else if m == 4 || m == 6 || m == 9 || m == 11 then 30 else 31

/-- Day ordinal (1970-01-01 = 0) of a civil date, standard era-based
algorithm; valid for the years `>= 1` that `parse_date` accepts. -/
def daysFromCivil (y m d : Nat) : Int :=
  let yy := if m ≤ 2 then y - 1 else y
  let era := yy / 400
  let yoe := yy - era * 400
  let mp := (m + 9) % 12
  let doy := (153 * mp + 2) / 5 + d - 1
  let doe := yoe * 365 + yoe / 4 - yoe / 100 + doy
  ((era * 146097 + doe : Nat) : Int) - 719468

/-- The date parser of `utils.parse_date`, producing the day ordinal:
rejects falsy values and strings starting with `0001`, truncates at `T`,
then parses `%Y-%m-%d` the way `datetime.strptime` does (exactly four year
digits, one or two month and day digits, calendar-validated). -/
def parseCivilDay (date_str : Option String) : Option Int :=
  match date_str with
  | none => none
  | some s =>
    if s.data.isEmpty || beginsWith "0001".data s.data then none
    else
      let clean := (splitOnChar 'T' s.data).headD []
      match splitOnChar '-' clean with
      | [ys, ms, ds] =>
        if allDigits ys && ys.length == 4 && allDigits ms && ms.length ≤ 2 &&
           allDigits ds && ds.length ≤ 2 then
          let y := digitsVal ys
          let m := digitsVal ms
          let d := digitsVal ds
          if 1 ≤ y && 1 ≤ m && m ≤ 12 && 1 ≤ d && d ≤ daysInMonth y m then
            some (daysFromCivil y m d)
          else none
        else none
      | _ => none

/-- `utils.parse_date`: a successfully parsed date is a midnight datetime. -/
def parse_date (date_str : Option String) : Option DateTime :=
  (parseCivilDay date_str).map (fun n => { day := n, tod := 0 })

/-- Leading and trailing whitespace removal (`float` accepts padded input). -/
def stripWS (cs : List Char) : List Char :=
  ((cs.dropWhile Char.isWhitespace).reverse.dropWhile Char.isWhitespace).reverse

/-- Unsigned decimal literal: digits, optionally a point and more digits,
with at least one digit present. -/
def parseDecimal (cs : List Char) : Option ℚ :=
  let ip := cs.takeWhile Char.isDigit
  let rest := cs.dropWhile Char.isDigit
  match rest with
  | [] => if ip.isEmpty then none else some (digitsVal ip : ℚ)
  | '.' :: fr =>
    if fr.all Char.isDigit && (!ip.isEmpty || !fr.isEmpty) then
      some ((digitsVal ip : ℚ) + (digitsVal fr : ℚ) / (10 : ℚ) ^ fr.length)
    else none
  | _ => none

/-- Signed decimal literal, whitespace-stripped, as `float(str)` accepts. -/
def parseNumStr (s : String) : Option ℚ :=
  match stripWS s.data with
  | '+' :: cs => parseDecimal cs
  | '-' :: cs => (parseDecimal cs).map Neg.neg
  | cs => parseDecimal cs

/-- `utils.parse_float`: falsy or unparseable values coerce to zero. -/
def parse_float (value : Option String) : ℚ :=
  match value with
  | none => 0
  | some s =>
    if s.data.isEmpty then 0
    else match parseNumStr s with
      | some q => q
      | none => 0

/-- `utils.location_contains`: case-insensitive substring test. -/
def location_contains (location text : String) : Bool :=
  hasSub (lowerStr text.data) (lowerStr location.data)

/-- One row of the export (`HB.*` keys); a missing key is `none`.
`days_held` is the key the engine writes into stale rows. -/
structure Item where
  name : Option String := none
  location : Option String := none
  labels : Option String := none
  archived : Option String := none
  insured : Option String := none
  purchase_price : Option String := none
  purchase_time : Option String := none
  sold_price : Option String := none
  sold_time : Option String := none
  days_held : Option Int := none
deriving DecidableEq, Repr

/-- `is_in_range` of `analysis.py`: both bounds inclusive, `.date()` on each
side, `False` on a missing date. -/
def is_in_range (start_date end_date : DateTime) (d : Option DateTime) : Bool :=
  match d with
  | none => false
  | some dd => decide (start_date.day ≤ dd.day) && decide (dd.day ≤ end_date.day)

/-- The sold date parses and lies in range (guard of the first loop). -/
def saleInRange (sd ed : DateTime) (r : Item) : Bool :=
  match parse_date r.sold_time with
  | none => false
  | some d => is_in_range sd ed (some d)

/-- The purchase date parses and lies in range. -/
def purchaseInRange (sd ed : DateTime) (r : Item) : Bool :=
  match parse_date r.purchase_time with
  | none => false
  | some d => is_in_range sd ed (some d)

/-- The service test of `analysis.py` lines 31-40: keywords in the lowered
labels, plus `service` and `other income` (but not `labor`) in the lowered
location. -/
def isService (r : Item) : Bool :=
  let labels := lowerStr (r.labels.getD "").data
  let location := lowerStr (r.location.getD "").data
  hasSub "service".data labels || hasSub "labor".data labels ||
  hasSub "other income".data labels ||
  hasSub "service".data location || hasSub "other income".data location

/-- Membership test for `month_sales_products`: in-range sale, not a
service, location does not contain `loss`. -/
def productSalePred (sd ed : DateTime) (r : Item) : Bool :=
  saleInRange sd ed r && !isService r &&
  !hasSub "loss".data (lowerStr (r.location.getD "").data)

/-- Membership test for `month_sales_services`. -/
def serviceSalePred (sd ed : DateTime) (r : Item) : Bool :=
  saleInRange sd ed r && isService r

/-- Product sales of the period. -/
def month_sales_products (rows : List Item) (sd ed : DateTime) : List Item :=
  rows.filter (productSalePred sd ed)

/-- Service sales of the period. -/
def month_sales_services (rows : List Item) (sd ed : DateTime) : List Item :=
  rows.filter (serviceSalePred sd ed)

/-- Sum of parsed sold prices. -/
def sumSold (l : List Item) : ℚ := (l.map (fun i => parse_float i.sold_price)).sum

/-- Sum of parsed purchase prices. -/
def sumPurchase (l : List Item) : ℚ := (l.map (fun i => parse_float i.purchase_price)).sum

/-- Product sales with a positive purchase price. -/
def items_with_cost (rows : List Item) (sd ed : DateTime) : List Item :=
  (month_sales_products rows sd ed).filter
    (fun item => decide (0 < parse_float item.purchase_price))

/-- Product sales with purchase price exactly zero. -/
def free_items (rows : List Item) (sd ed : DateTime) : List Item :=
  (month_sales_products rows sd ed).filter
    (fun item => decide (parse_float item.purchase_price = 0))

/-- Per-item ROI percentages over the items with cost (the loop rechecks
positivity, as the source does). -/
def roi_values (items : List Item) : List ℚ :=
  items.filterMap (fun item =>
    let p := parse_float item.purchase_price
    let s := parse_float item.sold_price
    if 0 < p then some (((s - p) / p) * 100) else none)

/-- Location exclusions of the expense scan: `nfs`, `other income`,
`junkagie`. -/
def expenseExcludedLoc (r : Item) : Bool :=
  let loc := lowerStr (r.location.getD "").data
  hasSub "nfs".data loc || hasSub "other income".data loc || hasSub "junkagie".data loc

/-- Rows with an in-range purchase outside the excluded buckets. -/
def business_items (rows : List Item) (sd ed : DateTime) : List Item :=
  rows.filter (fun r => purchaseInRange sd ed r && !expenseExcludedLoc r)

/-- All rows with an in-range purchase. -/
def period_expenses (rows : List Item) (sd ed : DateTime) : List Item :=
  rows.filter (purchaseInRange sd ed)

/-- Rows whose location contains `business assets` (range-independent). -/
def business_assets (rows : List Item) : List Item :=
  rows.filter (fun r => location_contains (r.location.getD "") "Business Assets")

/-- Loss rows realized in the period: location contains `loss` and the sold
date is in range. -/
def lossPred (sd ed : DateTime) (r : Item) : Bool :=
  location_contains (r.location.getD "") "Loss" && saleInRange sd ed r

/-- The loss list of the report. -/
def loss_items (rows : List Item) (sd ed : DateTime) : List Item :=
  rows.filter (lossPred sd ed)

/-- Rows whose location contains `junkagie` (range-independent). -/
def junkagie_items (rows : List Item) : List Item :=
  rows.filter (fun r => location_contains (r.location.getD "") "Junkagie")

/-- Location exclusions of the active-inventory scan. -/
def activeExcludedLoc (r : Item) : Bool :=
  let loc := lowerStr (r.location.getD "").data
  hasSub "nfs".data loc || hasSub "other income".data loc ||
  hasSub "junkagie".data loc || hasSub "business assets".data loc

/-- Active inventory test: archived is not exactly the string `true`, and
the location avoids the special buckets. -/
def isActivePred (r : Item) : Bool :=
  !(r.archived == some "true") && !activeExcludedLoc r

/-- The active-inventory list. -/
def active_inventory (rows : List Item) : List Item :=
  rows.filter isActivePred

/-- The stale check of the active loop: if the purchase date parses and the
row has been held more than 90 days, the engine writes `days_held` into the
row and keeps it; the returned value is that written row. -/
def staleUpdate (now : DateTime) (r : Item) : Option Item :=
  match parse_date r.purchase_time with
  | none => none
  | some p =>
    let dh := tdDays now p
    if 90 < dh then some { r with days_held := some dh } else none

/-- Stale rows in loop order, already carrying `days_held`. -/
def stale_unsorted (rows : List Item) (now : DateTime) : List Item :=
  (active_inventory rows).filterMap (staleUpdate now)

/-- Stale inventory sorted descending by `days_held` (stable, like Python's
`list.sort`). -/
def stale_inventory (rows : List Item) (now : DateTime) : List Item :=
  (stale_unsorted rows now).mergeSort
    (fun a b => decide (b.days_held.getD 0 ≤ a.days_held.getD 0))

/-- The caller's row list as it stands after the call: the engine has
written `days_held` into every active row that passed the stale check, and
touched nothing else. -/
def rows_after (rows : List Item) (now : DateTime) : List Item :=
  rows.map (fun r => if isActivePred r then (staleUpdate now r).getD r else r)

/-- Marketplace test: insured is exactly `true` and archived is not. -/
def marketplacePred (r : Item) : Bool :=
  r.insured == some "true" && !(r.archived == some "true")

/-- Marketplace listing rows. -/
def marketplace_items (rows : List Item) : List Item :=
  rows.filter marketplacePred

/-- Days to sell for each product sale with both dates parseable. -/
def days_to_sell (products : List Item) : List Int :=
  products.filterMap (fun item =>
    match parse_date item.purchase_time, parse_date item.sold_time with
    | some p, some s => some (tdDays s p)
    | _, _ => none)

/-- One step of the location grouping: bump an existing bucket or append a
new one (Python dict insertion order). -/
def addToLoc (acc : List (String × Nat × ℚ)) (loc : String) (v : ℚ) :
    List (String × Nat × ℚ) :=
  if acc.any (fun p => p.1 == loc) then
    acc.map (fun p => if p.1 == loc then (p.1, p.2.1 + 1, p.2.2 + v) else p)
  else acc ++ [(loc, 1, v)]

/-- Inventory by location: every non-archived row grouped by its raw
location string (missing location becomes `Unknown`), with count and summed
purchase price per bucket. -/
def inv_by_loc (rows : List Item) : List (String × Nat × ℚ) :=
  rows.foldl (fun acc r =>
    if r.archived == some "true" then acc
    else addToLoc acc (r.location.getD "Unknown") (parse_float r.purchase_price)) []

/-- Total of the per-bucket counts of a location grouping. -/
def invCountTotal (l : List (String × Nat × ℚ)) : Nat :=
  (l.map (fun p => p.2.1)).sum

/-- The report dictionary returned by `analyze_homebox_rows`.  The Python
dict literal lists the key `items_with_cost` twice (first the count, then
the list, which wins); both values are kept here as separate fields. -/
structure Report where
  start_date : DateTime
  end_date : DateTime
  product_revenue : ℚ
  service_revenue : ℚ
  total_revenue : ℚ
  cogs : ℚ
  net_profit : ℚ
  service_profit : ℚ
  total_profit : ℚ
  avg_roi : ℚ
  items_sold : Nat
  items_with_cost_count : Nat
  free_items_count : Nat
  avg_sale_price : ℚ
  avg_profit_per_item : ℚ
  business_expenses : ℚ
  total_expenses : ℚ
  business_assets_value : ℚ
  business_assets_count : Nat
  business_assets : List Item
  loss_value : ℚ
  loss_count : Nat
  junkagie_count : Nat
  junkagie_potential : Nat
  active_inventory_value : ℚ
  active_inventory_count : Nat
  total_active_value : ℚ
  total_active_count : Nat
  stale_inventory : List Item
  stale_count : Nat
  marketplace_value : ℚ
  marketplace_count : Nat
  avg_days_to_sell : ℚ
  quick_flips : Nat
  fastest_sale : Int
  slowest_sale : Int
  month_sales : List Item
  items_with_cost : List Item
  free_items : List Item
  other_income_items : List Item
  inventory_by_location : List (String × Nat × ℚ)
deriving DecidableEq

/-- The report engine `analyze_homebox_rows(rows, start_date, end_date)`.
The wall-clock value the source reads with `datetime.now()` is the explicit
`now` argument. -/
def analyze_homebox_rows (rows : List Item) (start_date end_date now : DateTime) :
    Report :=
  let products := month_sales_products rows start_date end_date
  let services := month_sales_services rows start_date end_date
  let total_revenue := sumSold products
  let iwc := items_with_cost rows start_date end_date
  let fi := free_items rows start_date end_date
  let cogs := sumPurchase iwc
  let net_profit := total_revenue - cogs
  let roi := roi_values iwc
  let service_revenue := sumSold services
  let assets := business_assets rows
  let losses := loss_items rows start_date end_date
  let junk := junkagie_items rows
  let active := active_inventory rows
  let stale := stale_inventory rows now
  let market := marketplace_items rows
  let dts := days_to_sell products
  { start_date := start_date
    end_date := end_date
    product_revenue := total_revenue
    service_revenue := service_revenue
    total_revenue := total_revenue + service_revenue
    cogs := cogs
    net_profit := net_profit
    service_profit := service_revenue
    total_profit := net_profit + service_revenue
    avg_roi := if roi.isEmpty then 0 else roi.sum / (roi.length : ℚ)
    items_sold := products.length
    items_with_cost_count := iwc.length
    free_items_count := fi.length
    avg_sale_price := if products.isEmpty then 0 else total_revenue / (products.length : ℚ)
    avg_profit_per_item := if products.isEmpty then 0 else net_profit / (products.length : ℚ)
    business_expenses := sumPurchase (business_items rows start_date end_date)
    total_expenses := sumPurchase (period_expenses rows start_date end_date)
    business_assets_value := sumPurchase assets
    business_assets_count := assets.length
    business_assets := assets
    loss_value := sumPurchase losses
    loss_count := losses.length
    junkagie_count := junk.length
    junkagie_potential := junk.length * 5
    active_inventory_value := 0
    active_inventory_count := 0
    total_active_value := sumPurchase active
    total_active_count := active.length
    stale_inventory := stale
    stale_count := stale.length
    marketplace_value := sumPurchase market
    marketplace_count := market.length
    avg_days_to_sell := if dts.isEmpty then 0 else ((dts.sum : Int) : ℚ) / (dts.length : ℚ)
    quick_flips := (dts.filter (fun d => decide (d ≤ 14))).length
    fastest_sale := dts.min?.getD 0
    slowest_sale := dts.max?.getD 0
    month_sales := products
    items_with_cost := iwc
    free_items := fi
    other_income_items := services
    inventory_by_location := inv_by_loc rows }

/-- Forget the `days_held` key of a row (used to state that the engine
writes nothing else into the caller's rows). -/
def eraseDaysHeld (r : Item) : Item := { r with days_held := none }

/-! ## Helper lemmas -/

theorem analyze_month_sales_eq (rows : List Item) (sd ed now : DateTime) :
    (analyze_homebox_rows rows sd ed now).month_sales = month_sales_products rows sd ed := rfl

theorem analyze_other_income_eq (rows : List Item) (sd ed now : DateTime) :
    (analyze_homebox_rows rows sd ed now).other_income_items =
      month_sales_services rows sd ed := rfl

theorem analyze_items_with_cost_eq (rows : List Item) (sd ed now : DateTime) :
    (analyze_homebox_rows rows sd ed now).items_with_cost = items_with_cost rows sd ed := rfl

theorem analyze_avg_roi_eq (rows : List Item) (sd ed now : DateTime) :
    (analyze_homebox_rows rows sd ed now).avg_roi =
      (if (roi_values (items_with_cost rows sd ed)).isEmpty then 0
       else (roi_values (items_with_cost rows sd ed)).sum /
            ((roi_values (items_with_cost rows sd ed)).length : ℚ)) := rfl

theorem analyze_avg_days_eq (rows : List Item) (sd ed now : DateTime) :
    (analyze_homebox_rows rows sd ed now).avg_days_to_sell =
      (if (days_to_sell (month_sales_products rows sd ed)).isEmpty then 0
       else ((days_to_sell (month_sales_products rows sd ed)).sum : ℚ) /
            ((days_to_sell (month_sales_products rows sd ed)).length : ℚ)) := rfl

theorem analyze_fastest_eq (rows : List Item) (sd ed now : DateTime) :
    (analyze_homebox_rows rows sd ed now).fastest_sale =
      (days_to_sell (month_sales_products rows sd ed)).min?.getD 0 := rfl

theorem analyze_quick_flips_eq (rows : List Item) (sd ed now : DateTime) :
    (analyze_homebox_rows rows sd ed now).quick_flips =
      ((days_to_sell (month_sales_products rows sd ed)).filter
        (fun d => decide (d ≤ 14))).length := rfl

theorem analyze_avg_sale_eq (rows : List Item) (sd ed now : DateTime) :
    (analyze_homebox_rows rows sd ed now).avg_sale_price =
      (if (month_sales_products rows sd ed).isEmpty then 0
       else sumSold (month_sales_products rows sd ed) /
            ((month_sales_products rows sd ed).length : ℚ)) := rfl

theorem analyze_avg_profit_eq (rows : List Item) (sd ed now : DateTime) :
    (analyze_homebox_rows rows sd ed now).avg_profit_per_item =
      (if (month_sales_products rows sd ed).isEmpty then 0
       else (sumSold (month_sales_products rows sd ed) -
             sumPurchase (items_with_cost rows sd ed)) /
            ((month_sales_products rows sd ed).length : ℚ)) := rfl

theorem analyze_slowest_eq (rows : List Item) (sd ed now : DateTime) :
    (analyze_homebox_rows rows sd ed now).slowest_sale =
      (days_to_sell (month_sales_products rows sd ed)).max?.getD 0 := rfl

theorem analyze_total_active_count_eq (rows : List Item) (sd ed now : DateTime) :
    (analyze_homebox_rows rows sd ed now).total_active_count =
      (active_inventory rows).length := rfl

theorem analyze_marketplace_count_eq (rows : List Item) (sd ed now : DateTime) :
    (analyze_homebox_rows rows sd ed now).marketplace_count =
      (marketplace_items rows).length := rfl

theorem analyze_inv_by_loc_eq (rows : List Item) (sd ed now : DateTime) :
    (analyze_homebox_rows rows sd ed now).inventory_by_location = inv_by_loc rows := rfl

theorem foldl_min_le_self (l : List Int) (a : Int) : l.foldl min a ≤ a := by
  induction l generalizing a with
  | nil => simp
  | cons b t ih => exact le_trans (ih (min a b)) (min_le_left a b)

theorem foldl_min_le_mem (l : List Int) (a x : Int) (h : x ∈ l) : l.foldl min a ≤ x := by
  induction l generalizing a with
  | nil => cases h
  | cons b t ih =>
    rcases List.mem_cons.mp h with rfl | hx
    · exact le_trans (foldl_min_le_self t (min a x)) (min_le_right a x)
    · exact ih (min a b) hx

theorem minD_le_of_mem (l : List Int) (x : Int) (h : x ∈ l) : l.min?.getD 0 ≤ x := by
  cases l with
  | nil => cases h
  | cons b t =>
    have hm : (b :: t).min? = some (t.foldl min b) := rfl
    rw [hm]
    rcases List.mem_cons.mp h with rfl | hx
    · exact foldl_min_le_self t x
    · exact foldl_min_le_mem t b x hx

/-! ## Claim theorems -/

/-- C4: for every input sequence and date range, the returned report
satisfies `total_revenue = product_revenue + service_revenue` and
`total_profit = net_profit + service_revenue` as exact equalities of the
computed values. -/
theorem C4_revenue_profit_identities (rows : List Item) (sd ed now : DateTime) :
    (analyze_homebox_rows rows sd ed now).total_revenue =
        (analyze_homebox_rows rows sd ed now).product_revenue +
          (analyze_homebox_rows rows sd ed now).service_revenue ∧
      (analyze_homebox_rows rows sd ed now).total_profit =
        (analyze_homebox_rows rows sd ed now).net_profit +
          (analyze_homebox_rows rows sd ed now).service_revenue :=
  ⟨rfl, rfl⟩

/-- C5: every count field of the returned report equals the length of its
corresponding list: `items_sold` with `month_sales`, `free_items_count`
with `free_items`, `loss_count` with the loss list, `stale_count` with
`stale_inventory`, `business_assets_count` with `business_assets`,
`marketplace_count` with the marketplace list, `total_active_count` with
the active-inventory list, and the `items_with_cost` count with the
`items_with_cost` list. -/
theorem C5_count_fields_match_list_lengths (rows : List Item) (sd ed now : DateTime) :
    (analyze_homebox_rows rows sd ed now).items_sold =
        (analyze_homebox_rows rows sd ed now).month_sales.length ∧
      (analyze_homebox_rows rows sd ed now).free_items_count =
        (analyze_homebox_rows rows sd ed now).free_items.length ∧
      (analyze_homebox_rows rows sd ed now).loss_count =
        (loss_items rows sd ed).length ∧
      (analyze_homebox_rows rows sd ed now).stale_count =
        (analyze_homebox_rows rows sd ed now).stale_inventory.length ∧
      (analyze_homebox_rows rows sd ed now).business_assets_count =
        (analyze_homebox_rows rows sd ed now).business_assets.length ∧
      (analyze_homebox_rows rows sd ed now).marketplace_count =
        (marketplace_items rows).length ∧
      (analyze_homebox_rows rows sd ed now).total_active_count =
        (active_inventory rows).length ∧
      (analyze_homebox_rows rows sd ed now).items_with_cost_count =
        (analyze_homebox_rows rows sd ed now).items_with_cost.length :=
  ⟨rfl, rfl, rfl, rfl, rfl, rfl, rfl, rfl⟩

/-- C7: date-range membership is inclusive at both bounds and compared at
day granularity: a date equal to either bound is in range, one day outside
either bound is out of range, the time-of-day components of the date and
of both bounds are ignored, and a missing date is never in range; an
item's range placement is exactly `is_in_range` of its parsed `sold_time`. -/
theorem C7_range_inclusive_day_granularity (s e : DateTime) (t : Int) :
    (s.day ≤ e.day →
        is_in_range s e (some { day := s.day, tod := t }) = true ∧
          is_in_range s e (some { day := e.day, tod := t }) = true) ∧
      is_in_range s e (some { day := s.day - 1, tod := t }) = false ∧
      is_in_range s e (some { day := e.day + 1, tod := t }) = false ∧
      (∀ d t2 t3 t4, is_in_range { day := s.day, tod := t2 } { day := e.day, tod := t3 }
          (some { day := d, tod := t4 }) = is_in_range s e (some { day := d, tod := t })) ∧
      is_in_range s e none = false ∧
      (∀ (sd ed : DateTime) (r : Item),
        saleInRange sd ed r = is_in_range sd ed (parse_date r.sold_time)) := by
  refine ⟨fun h => ⟨?_, ?_⟩, ?_, ?_, fun d t2 t3 t4 => rfl, rfl, fun sd ed r => ?_⟩
  · simp [is_in_range]; omega
  · simp [is_in_range]; omega
  · simp [is_in_range]
  · simp [is_in_range]
  · unfold saleInRange
    cases parse_date r.sold_time <;> rfl

/-- Witness for C7 at concrete bounds and times of day. -/
theorem C7_witness :
    is_in_range { day := 10, tod := 5 } { day := 20, tod := 7 }
        (some { day := 10, tod := 3 }) = true ∧
      is_in_range { day := 10, tod := 5 } { day := 20, tod := 7 }
        (some { day := 20, tod := 3 }) = true ∧
      is_in_range { day := 10, tod := 5 } { day := 20, tod := 7 }
        (some { day := 9, tod := 3 }) = false ∧
      is_in_range { day := 10, tod := 5 } { day := 20, tod := 7 }
        (some { day := 21, tod := 3 }) = false :=
  have h := C7_range_inclusive_day_granularity { day := 10, tod := 5 } { day := 20, tod := 7 } 3
  ⟨(h.1 (by decide)).1, (h.1 (by decide)).2, h.2.1, h.2.2.1⟩

/-- C6: whenever the underlying set of an average or extremum field is
empty, the field is exactly 0: `avg_roi` over an empty `items_with_cost`,
`avg_sale_price` and `avg_profit_per_item` over empty `month_sales`, and
`avg_days_to_sell`, `fastest_sale`, `slowest_sale` over an empty
days-to-sell set. -/
theorem C6_empty_sets_give_zero (rows : List Item) (sd ed now : DateTime) :
    ((analyze_homebox_rows rows sd ed now).items_with_cost = [] →
        (analyze_homebox_rows rows sd ed now).avg_roi = 0) ∧
      ((analyze_homebox_rows rows sd ed now).month_sales = [] →
        (analyze_homebox_rows rows sd ed now).avg_sale_price = 0 ∧
          (analyze_homebox_rows rows sd ed now).avg_profit_per_item = 0) ∧
      (days_to_sell (analyze_homebox_rows rows sd ed now).month_sales = [] →
        (analyze_homebox_rows rows sd ed now).avg_days_to_sell = 0 ∧
          (analyze_homebox_rows rows sd ed now).fastest_sale = 0 ∧
          (analyze_homebox_rows rows sd ed now).slowest_sale = 0) := by
  refine ⟨fun h => ?_, fun h => ?_, fun h => ?_⟩
  · rw [analyze_items_with_cost_eq] at h
    rw [analyze_avg_roi_eq, h]
    simp [roi_values]
  · rw [analyze_month_sales_eq] at h
    rw [analyze_avg_sale_eq, analyze_avg_profit_eq, h]
    simp
  · rw [analyze_month_sales_eq] at h
    rw [analyze_avg_days_eq, analyze_fastest_eq, analyze_slowest_eq, h]
    simp

/-- Witness for C6 at the empty item list. -/
theorem C6_witness :
    (analyze_homebox_rows [] { day := 0 } { day := 30 } { day := 40 }).avg_roi = 0 ∧
      (analyze_homebox_rows [] { day := 0 } { day := 30 } { day := 40 }).avg_sale_price = 0 ∧
      (analyze_homebox_rows [] { day := 0 } { day := 30 } { day := 40 }).avg_profit_per_item = 0 ∧
      (analyze_homebox_rows [] { day := 0 } { day := 30 } { day := 40 }).avg_days_to_sell = 0 ∧
      (analyze_homebox_rows [] { day := 0 } { day := 30 } { day := 40 }).fastest_sale = 0 ∧
      (analyze_homebox_rows [] { day := 0 } { day := 30 } { day := 40 }).slowest_sale = 0 :=
  have h := C6_empty_sets_give_zero [] { day := 0 } { day := 30 } { day := 40 }
  ⟨h.1 rfl, (h.2.1 rfl).1, (h.2.1 rfl).2, (h.2.2 rfl).1, (h.2.2 rfl).2.1, (h.2.2 rfl).2.2⟩

/-- Date range covering November 2025, used by concrete instances. -/
def sdNov : DateTime := { day := daysFromCivil 2025 11 1 }

/-- End of the November 2025 range. -/
def edNov : DateTime := { day := daysFromCivil 2025 11 30 }

/-- A wall-clock reading of 2025-12-01. -/
def nowDec : DateTime := { day := daysFromCivil 2025 12 1 }

/-- An archived in-range sale whose location contains `labor` and no other
trigger keyword. -/
def laborItem : Item :=
  { location := some "Labor"
    sold_price := some "50"
    sold_time := some "2025-11-10"
    archived := some "true" }

/-- C1 counterexample: an in-range sale whose location contains `labor`
(case-insensitively) is classified as a product sale, not a service sale:
the claimed iff fails in the location-`labor` direction. -/
theorem C1_counterexample :
    location_contains (laborItem.location.getD "") "labor" = true ∧
      saleInRange sdNov edNov laborItem = true ∧
      (analyze_homebox_rows [laborItem] sdNov edNov nowDec).other_income_items = [] ∧
      (analyze_homebox_rows [laborItem] sdNov edNov nowDec).month_sales = [laborItem] := by
  decide

/-- C1 (amended): an item whose `sold_time` parses and falls in range is
classified as a service sale iff its labels contain `service`, `labor` or
`other income`, or its location contains `service` or `other income`
(case-insensitively); `labor` in the location alone does not make it a
service sale. -/
theorem C1_service_classification (rows : List Item) (sd ed now : DateTime) (r : Item) :
    r ∈ (analyze_homebox_rows rows sd ed now).other_income_items ↔
      (r ∈ rows ∧ saleInRange sd ed r = true ∧
        (hasSub "service".data (lowerStr (r.labels.getD "").data) = true ∨
          hasSub "labor".data (lowerStr (r.labels.getD "").data) = true ∨
          hasSub "other income".data (lowerStr (r.labels.getD "").data) = true ∨
          hasSub "service".data (lowerStr (r.location.getD "").data) = true ∨
          hasSub "other income".data (lowerStr (r.location.getD "").data) = true)) := by
  rw [analyze_other_income_eq]
  simp only [month_sales_services, List.mem_filter, serviceSalePred, isService,
    Bool.and_eq_true, Bool.or_eq_true]
  tauto

/-- An in-range sale whose labels contain `labor`. -/
def svcItem : Item :=
  { labels := some "Labor Day Special"
    sold_price := some "75"
    sold_time := some "2025-11-12" }

/-- Witness for C1: a concrete in-range sale with `labor` in its labels
lands in `other_income_items`. -/
theorem C1_witness :
    svcItem ∈ (analyze_homebox_rows [svcItem] sdNov edNov nowDec).other_income_items :=
  (C1_service_classification [svcItem] sdNov edNov nowDec svcItem).mpr
    ⟨by decide, by decide, Or.inr (Or.inl (by decide))⟩

/-- An unarchived item with an in-range sold date. -/
def unarchivedSale : Item :=
  { archived := some "false"
    sold_price := some "40"
    sold_time := some "2025-11-08" }

/-- C2 counterexample: an item with `archived = "false"` and an in-range
sold date still appears in `month_sales`: being archived is not required
for an item to be counted as sold. -/
theorem C2_counterexample :
    unarchivedSale.archived = some "false" ∧
      (analyze_homebox_rows [unarchivedSale] sdNov edNov nowDec).month_sales
        = [unarchivedSale] := by
  decide

/-- Changing `archived` changes nothing the product-sale test reads. -/
theorem productSalePred_set_archived (sd ed : DateTime) (r : Item) (a : Option String) :
    productSalePred sd ed { r with archived := a } = productSalePred sd ed r := rfl

/-- Changing `archived` changes nothing the service-sale test reads. -/
theorem serviceSalePred_set_archived (sd ed : DateTime) (r : Item) (a : Option String) :
    serviceSalePred sd ed { r with archived := a } = serviceSalePred sd ed r := rfl

/-- Changing `archived` changes nothing the loss test reads. -/
theorem lossPred_set_archived (sd ed : DateTime) (r : Item) (a : Option String) :
    lossPred sd ed { r with archived := a } = lossPred sd ed r := rfl

/-- C2 (amended): the engine never consults `archived` when it builds
`month_sales`, `other_income_items` or the loss list: overwriting the
`archived` field of every row with any value leaves all three lists
unchanged (up to the same overwrite). -/
theorem C2_archived_not_required (rows : List Item) (sd ed now : DateTime)
    (a : Option String) :
    (analyze_homebox_rows (rows.map (fun r => { r with archived := a })) sd ed now).month_sales
        = ((analyze_homebox_rows rows sd ed now).month_sales.map
            (fun r => { r with archived := a })) ∧
      (analyze_homebox_rows (rows.map (fun r => { r with archived := a }))
            sd ed now).other_income_items
        = ((analyze_homebox_rows rows sd ed now).other_income_items.map
            (fun r => { r with archived := a })) ∧
      loss_items (rows.map (fun r => { r with archived := a })) sd ed
        = (loss_items rows sd ed).map (fun r => { r with archived := a }) := by
  refine ⟨?_, ?_, ?_⟩
  · rw [analyze_month_sales_eq, analyze_month_sales_eq]
    unfold month_sales_products
    rw [List.filter_map]
    exact congrArg _ (List.filter_congr fun x _ => productSalePred_set_archived sd ed x a)
  · rw [analyze_other_income_eq, analyze_other_income_eq]
    unfold month_sales_services
    rw [List.filter_map]
    exact congrArg _ (List.filter_congr fun x _ => serviceSalePred_set_archived sd ed x a)
  · unfold loss_items
    rw [List.filter_map]
    exact congrArg _ (List.filter_congr fun x _ => lossPred_set_archived sd ed x a)

/-- An unarchived stale row: purchased 2025-01-01, held 334 days as of
`nowDec`. -/
def staleRow : Item :=
  { archived := some "false"
    purchase_price := some "50"
    purchase_time := some "2025-01-01" }

/-- C3 counterexample: the engine writes `days_held` into the caller's own
row, so after the call the caller's list is no longer what was passed in. -/
theorem C3_counterexample : rows_after [staleRow] nowDec ≠ [staleRow] := by
  decide

/-- The stale write only ever touches the `days_held` field. -/
theorem eraseDaysHeld_staleUpdate (now : DateTime) (r : Item) :
    eraseDaysHeld ((staleUpdate now r).getD r) = eraseDaysHeld r := by
  unfold staleUpdate
  cases parse_date r.purchase_time with
  | none => rfl
  | some p =>
    dsimp only
    split
    · rfl
    · rfl

/-- Rows in which nothing satisfies the stale-active condition come back
exactly as they were passed. -/
theorem rows_after_untouched (now : DateTime) :
    ∀ rows : List Item,
      (∀ r ∈ rows, isActivePred r = false ∨ staleUpdate now r = none) →
        rows_after rows now = rows
  | [], _ => rfl
  | r :: t, hall => by
    have hr := hall r (List.mem_cons_self r t)
    have ht := rows_after_untouched now t (fun x hx => hall x (List.mem_cons_of_mem r hx))
    show (if isActivePred r then (staleUpdate now r).getD r else r) :: rows_after t now
        = r :: t
    rw [ht]
    rcases hr with h | h
    · rw [if_neg (by simp [h])]
    · cases ha : isActivePred r with
      | false => rw [if_neg (by simp [ha])]
      | true => rw [if_pos rfl, h]; rfl

/-- C3 (amended): the engine's only effect on the caller's rows is the
`days_held` write on rows passing the stale-active check: erasing
`days_held` undoes everything the call changed, and when no row passes the
check the caller's rows come back unchanged. -/
theorem C3_mutation_scope (rows : List Item) (now : DateTime) :
    (rows_after rows now).map eraseDaysHeld = rows.map eraseDaysHeld ∧
      ((∀ r ∈ rows, isActivePred r = false ∨ staleUpdate now r = none) →
        rows_after rows now = rows) := by
  constructor
  · unfold rows_after
    rw [List.map_map]
    refine List.map_congr_left fun r _ => ?_
    show eraseDaysHeld (if isActivePred r then (staleUpdate now r).getD r else r)
        = eraseDaysHeld r
    cases ha : isActivePred r with
    | false => rw [if_neg (by simp [ha])]
    | true => rw [if_pos rfl]; exact eraseDaysHeld_staleUpdate now r
  · exact rows_after_untouched now rows

/-- A row with no parseable purchase date. -/
def freshRow : Item :=
  { location := some "Shelf A"
    purchase_price := some "10" }

/-- Witness for C3: a caller row that fails the stale check is returned
untouched. -/
theorem C3_witness : rows_after [freshRow] nowDec = [freshRow] :=
  (C3_mutation_scope [freshRow] nowDec).2 (by decide)

/-- C8: the engine's field handling is total and never raises: falsy,
sentinel and invalid date strings parse to `none`; missing or non-numeric
monetary values coerce to exactly 0; and with the text fields absent every
classification predicate evaluates to false. -/
theorem C8_total_gracefully_degrades (sd ed : DateTime) :
    parse_date none = none ∧
      parse_date (some "") = none ∧
      parse_date (some "0001-01-01") = none ∧
      parse_date (some "not a date") = none ∧
      parse_date (some "2025-13-05") = none ∧
      parse_date (some "2025-02-30") = none ∧
      parse_float none = 0 ∧
      parse_float (some "") = 0 ∧
      parse_float (some "N/A") = 0 ∧
      (∀ r : Item, r.labels = none → r.location = none →
        isService r = false ∧
          lossPred sd ed r = false ∧
          activeExcludedLoc r = false ∧
          expenseExcludedLoc r = false ∧
          location_contains (r.location.getD "") "Business Assets" = false ∧
          location_contains (r.location.getD "") "Junkagie" = false) ∧
      (∀ r : Item, r.insured = none → marketplacePred r = false) := by
  refine ⟨rfl, rfl, rfl, rfl, rfl, rfl, rfl, rfl, rfl, ?_, ?_⟩
  · intro r h1 h2
    have hLoss : location_contains "" "Loss" = false := by decide
    refine ⟨?_, ?_, ?_, ?_, ?_, ?_⟩
    · simp only [isService, h1, h2]; decide
    · simp only [lossPred, h2]
      show (location_contains "" "Loss" && saleInRange sd ed r) = false
      rw [hLoss, Bool.false_and]
    · simp only [activeExcludedLoc, h2]; decide
    · simp only [expenseExcludedLoc, h2]; decide
    · rw [h2]; decide
    · rw [h2]; decide
  · intro r h
    simp only [marketplacePred, h]
    rfl

/-- A row with every field missing. -/
def bareRow : Item := {}

/-- Witness for C8: every classification predicate is false on a row with
no fields at all. -/
theorem C8_witness :
    isService bareRow = false ∧
      lossPred sdNov edNov bareRow = false ∧
      marketplacePred bareRow = false :=
  have h := C8_total_gracefully_degrades sdNov edNov
  ⟨(h.2.2.2.2.2.2.2.2.2.1 bareRow rfl rfl).1,
    (h.2.2.2.2.2.2.2.2.2.1 bareRow rfl rfl).2.1,
    h.2.2.2.2.2.2.2.2.2.2 bareRow rfl⟩

/-- C10: the boolean-as-string fields are recognized only by exact match
with the lowercase string `true`: a row whose `archived` is anything else
counts as non-archived for active inventory, inventory-by-location and the
marketplace, and its `insured` puts it in the marketplace iff it is
exactly `true`. -/
theorem C10_boolean_exact_match (sd ed now : DateTime) (r : Item)
    (h : r.archived ≠ some "true") :
    ((analyze_homebox_rows [r] sd ed now).total_active_count
        = if activeExcludedLoc r = true then 0 else 1) ∧
      invCountTotal (analyze_homebox_rows [r] sd ed now).inventory_by_location = 1 ∧
      ((analyze_homebox_rows [r] sd ed now).marketplace_count
        = if r.insured = some "true" then 1 else 0) := by
  have hb : (r.archived == some "true") = false := beq_eq_false_iff_ne.mpr h
  refine ⟨?_, ?_, ?_⟩
  · rw [analyze_total_active_count_eq]
    unfold active_inventory isActivePred
    cases hx : activeExcludedLoc r <;> simp [List.filter_cons, hb, hx]
  · rw [analyze_inv_by_loc_eq]
    unfold inv_by_loc
    simp [hb, h, addToLoc, invCountTotal]
  · rw [analyze_marketplace_count_eq]
    unfold marketplace_items marketplacePred
    by_cases hi : r.insured = some "true"
    · have hib : (r.insured == some "true") = true := by rw [hi]; rfl
      simp [List.filter_cons, hb, hib, hi]
    · have hib : (r.insured == some "true") = false := beq_eq_false_iff_ne.mpr hi
      simp [List.filter_cons, hb, hib, hi]

/-- A row with `archived` set to `True` and `insured` to `yes` (neither is
the exact lowercase `true`). -/
def oddFlags : Item :=
  { archived := some "True"
    insured := some "yes"
    location := some "Shelf B" }

/-- Witness for C10: the `True`/`yes` row counts as active and unlisted. -/
theorem C10_witness :
    (analyze_homebox_rows [oddFlags] sdNov edNov nowDec).total_active_count = 1 ∧
      invCountTotal
        (analyze_homebox_rows [oddFlags] sdNov edNov nowDec).inventory_by_location = 1 ∧
      (analyze_homebox_rows [oddFlags] sdNov edNov nowDec).marketplace_count = 0 :=
  have h := C10_boolean_exact_match sdNov edNov nowDec oddFlags (by decide)
  ⟨h.1.trans (by decide), h.2.1, (h.2.2).trans (by decide)⟩

/-- A successfully parsed date is a midnight datetime. -/
theorem parse_date_tod (o : Option String) (d : DateTime) (h : parse_date o = some d) :
    d.tod = 0 := by
  unfold parse_date at h
  cases hc : parseCivilDay o with
  | none => rw [hc] at h; simp at h
  | some n =>
    rw [hc] at h
    simp only [Option.map_some'] at h
    injection h with h2
    rw [← h2]

/-- On midnight datetimes the Python day difference is plain day-ordinal
subtraction. -/
theorem tdDays_of_tod_zero (a b : DateTime) (ha : a.tod = 0) (hb : b.tod = 0) :
    tdDays a b = a.day - b.day := by
  unfold tdDays
  rw [ha, hb]
  have he : a.day * usPerDay + 0 - (b.day * usPerDay + 0) = (a.day - b.day) * usPerDay := by
    ring
  rw [he, Int.mul_fdiv_cancel _ (by decide)]

/-- C9 (amended): an in-range product sale whose parsed sold date precedes
its parsed purchase date has a negative `days_to_sell`; that value enters
the days-to-sell list, is counted by `quick_flips`, forces `fastest_sale`
to be negative (not just "can make it negative"), and strictly lowers the
days-to-sell total relative to the same report without it. -/
theorem C9_sold_before_purchase (rows : List Item) (sd ed now : DateTime) (r : Item)
    (p s : DateTime)
    (hm : r ∈ (analyze_homebox_rows rows sd ed now).month_sales)
    (hp : parse_date r.purchase_time = some p)
    (hs : parse_date r.sold_time = some s)
    (hlt : s.day < p.day) :
    tdDays s p < 0 ∧
      tdDays s p ∈ days_to_sell (month_sales_products rows sd ed) ∧
      1 ≤ (analyze_homebox_rows rows sd ed now).quick_flips ∧
      (analyze_homebox_rows rows sd ed now).fastest_sale ≤ tdDays s p ∧
      (analyze_homebox_rows rows sd ed now).fastest_sale < 0 ∧
      (days_to_sell (month_sales_products rows sd ed)).sum <
        ((days_to_sell (month_sales_products rows sd ed)).erase (tdDays s p)).sum := by
  have hps : p.tod = 0 := parse_date_tod _ _ hp
  have hss : s.tod = 0 := parse_date_tod _ _ hs
  have hd : tdDays s p = s.day - p.day := tdDays_of_tod_zero s p hss hps
  have hneg : tdDays s p < 0 := by rw [hd]; omega
  rw [analyze_month_sales_eq] at hm
  have hmem : tdDays s p ∈ days_to_sell (month_sales_products rows sd ed) := by
    unfold days_to_sell
    exact List.mem_filterMap.mpr ⟨r, hm, by rw [hp, hs]⟩
  have hfast : (analyze_homebox_rows rows sd ed now).fastest_sale ≤ tdDays s p := by
    rw [analyze_fastest_eq]
    exact minD_le_of_mem _ _ hmem
  refine ⟨hneg, hmem, ?_, hfast, lt_of_le_of_lt hfast hneg, ?_⟩
  · rw [analyze_quick_flips_eq]
    have hin : tdDays s p ∈ (days_to_sell (month_sales_products rows sd ed)).filter
        (fun d => decide (d ≤ 14)) :=
      List.mem_filter.mpr ⟨hmem, by simp only [decide_eq_true_eq]; rw [hd]; omega⟩
    have hpos := List.length_pos.mpr (List.ne_nil_of_mem hin)
    omega
  · have hsum := (List.perm_cons_erase hmem).sum_eq
    rw [hsum, List.sum_cons]
    omega

/-- A product sale sold one day before it was purchased. -/
def soldBeforeBuy : Item :=
  { sold_time := some "2025-11-10"
    purchase_time := some "2025-11-11"
    sold_price := some "10" }

/-- A product sale sold one hundred days before it was purchased. -/
def negHundredItem : Item :=
  { sold_time := some "2025-11-01"
    purchase_time := some "2026-02-09"
    sold_price := some "10" }

/-- C9 counterexample: an in-range product sale with parsed sold date
strictly before its purchase date does NOT always lower
`avg_days_to_sell`: adding the days = -1 item to a report whose only other
sale sits at days = -100 raises the average from -100 to -101/2. -/
theorem C9_counterexample :
    parse_date soldBeforeBuy.sold_time = some { day := 20402 } ∧
      parse_date soldBeforeBuy.purchase_time = some { day := 20403 } ∧
      soldBeforeBuy ∈
        (analyze_homebox_rows [negHundredItem, soldBeforeBuy] sdNov edNov nowDec).month_sales ∧
      (analyze_homebox_rows [negHundredItem, soldBeforeBuy]
          sdNov edNov nowDec).avg_days_to_sell >
        (analyze_homebox_rows [negHundredItem] sdNov edNov nowDec).avg_days_to_sell := by
  refine ⟨by decide, by decide, by decide, ?_⟩
  have h1 : days_to_sell (month_sales_products [negHundredItem, soldBeforeBuy] sdNov edNov)
      = [-100, -1] := by decide
  have h2 : days_to_sell (month_sales_products [negHundredItem] sdNov edNov)
      = [-100] := by decide
  rw [analyze_avg_days_eq, analyze_avg_days_eq, h1, h2]
  norm_num

/-- Witness for C9: the single sold-before-purchase sale makes
`fastest_sale` negative and is counted by `quick_flips`. -/
theorem C9_witness :
    (analyze_homebox_rows [soldBeforeBuy] sdNov edNov nowDec).fastest_sale < 0 ∧
      1 ≤ (analyze_homebox_rows [soldBeforeBuy] sdNov edNov nowDec).quick_flips :=
  have h := C9_sold_before_purchase [soldBeforeBuy] sdNov edNov nowDec soldBeforeBuy
    { day := 20403 } { day := 20402 } (by decide) (by decide) (by decide) (by decide)
  ⟨h.2.2.2.2.1, h.2.2.1⟩

end Homebox
